import Mathlib

/-!
Verification development for the mltc-enumerator backend: a shallow embedding
of the elicitation, threat-chain generation and verification pipeline
(src/backend), together with theorems about the spec-level claims.

Python strings are modelled as Lean `String`, parsed JSON records as
structures with `Option` fields for optional keys, floats as exact
rationals (`ℚ`, all constants in the source are short decimals), and
provider (LLM) calls as explicit oracle parameters plus a call counter.
-/

namespace MLTC

/-! ## Python string primitives

`str.lower` and `str.strip` are re-implemented over `List Char` so that the
kernel can evaluate them (the built-in `String.trim` is byte-position based
and does not reduce). -/

/-- Python `str.lower` (ASCII case folding, as used on ASCII names here). -/
def pyLower (s : String) : String := ⟨s.data.map Char.toLower⟩

/-- Python `str.strip`: drop whitespace from both ends. -/
def pyStrip (s : String) : String :=
  ⟨((s.data.dropWhile Char.isWhitespace).reverse.dropWhile Char.isWhitespace).reverse⟩

/-- Python `pat in s` substring test over character lists. -/
def containsSub (pat : List Char) : List Char → Bool
  | [] => pat.isEmpty
  | c :: cs => pat.isPrefixOf (c :: cs) || containsSub pat cs

/-! ## Data model (src/backend/schemas.py) -/

/-- schemas.py `ThreatCategory` (STRIDE plus `other`). -/
inductive ThreatCategory where
  | spoofing
  | tampering
  | repudiation
  | information_disclosure
  | denial_of_service
  | elevation_of_privilege
  | other
deriving DecidableEq, Repr

/-- schemas.py `Attacker` (the `id : UUID` is irrelevant to the claims and
modelled as a plain `Nat`). -/
structure Attacker where
  id : Nat
  description : String
  skill_level : Nat
  access_level : Nat
  prob_of_attack : ℚ
deriving DecidableEq, Repr

/-- schemas.py `EntryPoint`. -/
structure EntryPoint where
  id : Nat
  name : String
  description : String
  prob_of_entry : ℚ
  difficulty_of_entry : Nat
deriving DecidableEq, Repr

/-- schemas.py `Asset`. -/
structure Asset where
  id : Nat
  name : String
  description : String
  failure_modes : List String
deriving DecidableEq, Repr

/-- schemas.py `ContextEnumeration` (the consolidated security context).
The `textual_dfd` field is used by the routers and the generator even though
the copy of schemas.py in the snapshot omits it. -/
structure ContextEnumeration where
  textual_dfd : String
  attackers : List Attacker
  entry_points : List EntryPoint
  assets : List Asset
  assumptions : List String
  questions : List String
  answers : List String
deriving DecidableEq, Repr

/-- schemas.py `ThreatChain`.  Note that `chain` and `mitigations` are plain
`List[str]` fields in the pydantic model: no minimum length is enforced. -/
structure ThreatChain where
  name : String
  chain : List String
  category : ThreatCategory
  description : String
  mitre_atlas : String
  mitre_attack : String
  mitigations : List String
deriving DecidableEq, Repr

/-- Modelled from the spec: the `ThreatVerificationAnswer` record is imported
by services/threat_verifier.py from schemas.py but its declaration is missing
from the snapshot; fields follow its uses (threat_name, question_id,
selected_option_id, custom_answer, confidence_level) and section 3 of the
spec. -/
structure ThreatVerificationAnswer where
  question_id : String
  threat_name : String
  selected_option_id : Option String
  custom_answer : Option String
  confidence_level : Nat
deriving DecidableEq, Repr

/-- Modelled from the spec: the `FilteredThreatChain` record is imported by
services/threat_verifier.py and routers/verify.py from schemas.py but its
declaration is missing from the snapshot; fields follow its construction
sites (threat_chain, plausibility_score, reasoning, kept) and section 3 of
the spec. -/
structure FilteredThreatChain where
  threat_chain : ThreatChain
  plausibility_score : ℚ
  reasoning : String
  kept : Bool
deriving DecidableEq, Repr

/-- fastapi `HTTPException`, reduced to the two fields the routers set. -/
structure HTTPException where
  status_code : Nat
  detail : String
deriving DecidableEq, Repr

/-! ## services/client.py -/

/-- Case-insensitive literal match of `pat` against a prefix of the input
(the `re.IGNORECASE` flag on the think-tag regex); returns the rest of the
input on success. -/
def matchCI : List Char → List Char → Option (List Char)
  | [], rest => some rest
  | _ :: _, [] => none
  | p :: ps, c :: cs => if p.toLower == c.toLower then matchCI ps cs else none

/-- Scan for the nearest occurrence of the closing tag (the non-greedy
`[\s\S]*?` of the regex) and return the input after it. -/
def findCloseTag : List Char → Option (List Char)
  | [] => none
  | c :: cs =>
    match matchCI "</think>".data (c :: cs) with
    | some rest => some rest
    | none => findCloseTag cs

/-- The left-to-right global substitution of client.py line 158: every
case-insensitive think-tag block, up to the nearest closing tag, is replaced
by the empty string.  The `fuel` argument only bounds the recursion; every
step consumes at least one character, so `fuel = length` is always enough. -/
def stripThinkAux : Nat → List Char → List Char
  | 0, l => l
  | _ + 1, [] => []
  | fuel + 1, c :: cs =>
    match matchCI "<think>".data (c :: cs) with
    | some afterOpen =>
      match findCloseTag afterOpen with
      | some afterClose => stripThinkAux fuel afterClose
      | none => c :: stripThinkAux fuel cs
    | none => c :: stripThinkAux fuel cs

/-- `LLMClient.chat_completion_json` (client.py lines 117-184),
LOCAL_LM_STUDIO branch, as a function of the raw completion text: the think
tags are removed and the cleaned content is returned directly by the
`return cleaned_content` statement on line 159.  The brace-block JSON
extraction on lines 160-184 sits after that unconditional return and is
unreachable. -/
def chat_completion_json (content : String) : String :=
  ⟨stripThinkAux content.data.length content.data⟩

/-! ## routers/chat_refine.py, SATISFIED branch -/

/-- One record of the `qa_pairs` array of the Q and A extraction response
(optional keys, as produced by `json.loads`). -/
structure QaPair where
  question : Option String
  answer : Option String
deriving DecidableEq, Repr

/-- chat_refine.py line 361: `[pair["question"].strip() for pair in
qa_data.get("qa_pairs", []) if "question" in pair]`. -/
def consolidated_questions (qa_pairs : List QaPair) : List String :=
  qa_pairs.filterMap (fun p => p.question.map pyStrip)

/-- chat_refine.py line 362: `[pair["answer"].strip() for pair in
qa_data.get("qa_pairs", []) if "answer" in pair]`. -/
def consolidated_answers (qa_pairs : List QaPair) : List String :=
  qa_pairs.filterMap (fun p => p.answer.map pyStrip)

/-! ## services/threat_generator.py -/

/-- The deduplication key of threat_generator.py line 335:
`threat.name.lower().strip()`. -/
def dedupKey (t : ThreatChain) : String := pyStrip (pyLower t.name)

/-- Recursion of `_deduplicate_threats` over the input list, carrying the
`seen_names` set (modelled as the list of keys added so far). -/
def dedupAux (seen : List String) : List ThreatChain → List ThreatChain
  | [] => []
  | t :: ts =>
    if dedupKey t ∈ seen then dedupAux seen ts
    else t :: dedupAux (dedupKey t :: seen) ts

/-- `ThreatChainGenerator._deduplicate_threats` (threat_generator.py lines
328-342): keep the first occurrence of each lowercased, stripped name. -/
def _deduplicate_threats (threats : List ThreatChain) : List ThreatChain :=
  dedupAux [] threats

/-- The fixed `category_weights` table inside `threat_score`
(threat_generator.py lines 351-359).  The `.get(category, 0.4)` default can
never fire because the table is total on the enum. -/
def category_weight : ThreatCategory → ℚ
  | .information_disclosure => 1
  | .tampering => mkRat 9 10
  | .elevation_of_privilege => mkRat 8 10
  | .denial_of_service => mkRat 7 10
  | .spoofing => mkRat 6 10
  | .repudiation => mkRat 5 10
  | .other => mkRat 4 10

/-- The fixed `ml_keywords` list (threat_generator.py line 369). -/
def ml_keywords : List String :=
  ["model", "training", "adversarial", "poisoning", "inference", "data", "ml", "ai"]

/-- `sum(1 for keyword in ml_keywords if keyword in threat_text)` where
`threat_text = (threat.name + " " + threat.description).lower()`. -/
def ml_relevance (t : ThreatChain) : Nat :=
  (ml_keywords.filter
    (fun kw => containsSub kw.data (pyLower (t.name ++ " " ++ t.description)).data)).length

/-- The deterministic per-chain score `threat_score` of `_prioritize_threats`
(threat_generator.py lines 347-374). -/
def threat_score (t : ThreatChain) : ℚ :=
  category_weight t.category
    + min ((t.chain.length : ℚ) * mkRat 1 10) (mkRat 5 10)
    + min ((t.mitigations.length : ℚ) * mkRat 5 100) (mkRat 3 10)
    + min ((ml_relevance t : ℚ) * mkRat 1 10) (mkRat 4 10)

/-- Stable descending insertion by a rational key: the new element goes in
front of the first element whose key is not larger, so earlier input stays
first on ties.  This is the extensional behaviour of CPython
`sorted(key=..., reverse=True)`, which is guaranteed stable. -/
def insertByDesc (key : α → ℚ) (x : α) : List α → List α
  | [] => [x]
  | y :: ys => if key y ≤ key x then x :: y :: ys else y :: insertByDesc key x ys

/-- Stable descending sort by a rational key (model of CPython
`sorted(..., key=..., reverse=True)` / `list.sort(...)`). -/
def sortByDesc (key : α → ℚ) (l : List α) : List α :=
  l.foldr (insertByDesc key) []

/-- `ThreatChainGenerator._prioritize_threats` (threat_generator.py lines
344-379): stable sort by `threat_score`, descending. -/
def _prioritize_threats (threats : List ThreatChain) : List ThreatChain :=
  sortByDesc threat_score threats

/-- The outcome of one generation strategy task under
`asyncio.gather(*tasks, return_exceptions=True)`: either its chain list or
the exception it raised. -/
abbrev StrategyResult := Except String (List ThreatChain)

/-- The fan-in loop of `generate_threat_chains` (threat_generator.py lines
42-48): concatenate the lists of the successful tasks, skip exceptions. -/
def combineResults (results : List StrategyResult) : List ThreatChain :=
  results.foldl
    (fun all_threats r =>
      match r with
      | .ok chains => all_threats ++ chains
      | .error _ => all_threats) []

/-- `ThreatChainGenerator.generate_threat_chains` (threat_generator.py lines
19-57) as a function of the four strategy outcomes (the provider calls and
JSON parses inside each strategy are summarised by its `StrategyResult`):
fan-in, deduplicate, prioritize, truncate to the top 15. -/
def generate_threat_chains (r1 r2 r3 r4 : StrategyResult) : List ThreatChain :=
  (_prioritize_threats (_deduplicate_threats (combineResults [r1, r2, r3, r4]))).take 15

/-! ## routers/generate.py -/

/-- Observable outcome of one call of the `/generate` endpoint: the HTTP
result, how many generation tasks were spawned, and how many provider calls
were issued (one per spawned strategy task). -/
structure GenerateOutcome where
  result : Except HTTPException (List ThreatChain)
  tasks_spawned : Nat
  provider_calls : Nat
deriving Repr

/-- The blanket exception handler of the routers re-raises any exception,
a 400 HTTPException included, as a 500 HTTPException whose detail is the
given message followed by the textual form of the original exception
(status code, colon, detail). -/
def rewrap (prefixMsg : String) (e : HTTPException) : HTTPException :=
  ⟨500, prefixMsg ++ toString e.status_code ++ ": " ++ e.detail⟩

/-- The insufficient-context validation message of generate.py line 27. -/
def insufficientContextDetail : String :=
  "Insufficient context provided. At least one attacker, entry point, or asset must be specified."

/-- `generate` (routers/generate.py lines 10-45): reject when the context has
no attackers, no entry points and no assets, before the generator (and hence
any strategy task or provider call) is touched; otherwise spawn the four
strategies and run the pipeline. -/
def generate (request : ContextEnumeration) (r1 r2 r3 r4 : StrategyResult) :
    GenerateOutcome :=
  if request.attackers.isEmpty && request.entry_points.isEmpty && request.assets.isEmpty then
    { result := .error (rewrap "Failed to generate threat chains: " ⟨400, insufficientContextDetail⟩),
      tasks_spawned := 0,
      provider_calls := 0 }
  else
    { result := .ok (generate_threat_chains r1 r2 r3 r4),
      tasks_spawned := 4,
      provider_calls := 4 }

/-! ## services/threat_verifier.py -/

/-- The parsed plausibility-assessment response for one threat: the
`float(data.get("plausibility_score", 0.5))` value and the reasoning text, as
a function of the threat and its answers (the provider is deterministic per
request within one run). -/
abbrev PlausibilityOracle := ThreatChain → List ThreatVerificationAnswer → ℚ × String

/-- Result of `_analyze_threat_plausibility` together with the number of
provider calls it made. -/
structure AnalysisOutcome where
  result : FilteredThreatChain
  provider_calls : Nat
deriving DecidableEq, Repr

/-- The neutral reasoning string of threat_verifier.py line 233. -/
def noAnswersReasoning : String :=
  "No verification answers provided - kept with medium confidence"

/-- `ThreatVerifier._analyze_threat_plausibility` (threat_verifier.py lines
220-263): with no answers, fixed score 0.5 and kept, no provider call; with
answers, one provider call and kept exactly when the returned score is at
least 0.3. -/
def _analyze_threat_plausibility (oracle : PlausibilityOracle) (threat : ThreatChain)
    (answers : List ThreatVerificationAnswer) : AnalysisOutcome :=
  if answers.isEmpty then
    { result :=
        { threat_chain := threat,
          plausibility_score := mkRat 1 2,
          reasoning := noAnswersReasoning,
          kept := true },
      provider_calls := 0 }
  else
    let parsed := oracle threat answers
    { result :=
        { threat_chain := threat,
          plausibility_score := parsed.1,
          reasoning := parsed.2,
          kept := decide (mkRat 3 10 ≤ parsed.1) },
      provider_calls := 1 }

/-- The `answers_by_threat` grouping of threat_verifier.py lines 198-202 and
the per-threat lookup `answers_by_threat.get(threat.name, [])`: grouping by
key and looking one key up is filtering by that key, in input order. -/
def answers_for (verification_answers : List ThreatVerificationAnswer) (name : String) :
    List ThreatVerificationAnswer :=
  verification_answers.filter (fun a => a.threat_name == name)

/-- Result of `filter_threats_by_verification` together with the total number
of provider calls made. -/
structure FilterOutcome where
  result : List FilteredThreatChain
  provider_calls : Nat
deriving DecidableEq, Repr

/-- `ThreatVerifier.filter_threats_by_verification` (threat_verifier.py lines
178-218): analyze every chain against its own answers, then stable-sort the
filtered chains by plausibility score, descending. -/
def filter_threats_by_verification (oracle : PlausibilityOracle)
    (threat_chains : List ThreatChain)
    (verification_answers : List ThreatVerificationAnswer) : FilterOutcome :=
  let analyzed := threat_chains.map
    (fun t => _analyze_threat_plausibility oracle t (answers_for verification_answers t.name))
  { result := sortByDesc (fun f => f.plausibility_score) (analyzed.map (fun a => a.result)),
    provider_calls := (analyzed.map (fun a => a.provider_calls)).sum }

/-! ## routers/verify.py -/

/-- The `ThreatFilterResponse` fields set by the `/verify/filter` endpoint
(the schema declaration is again missing from the snapshot of schemas.py;
fields follow verify.py lines 115-120). -/
structure ThreatFilterResponse where
  filtered_threats : List FilteredThreatChain
  removed_count : Nat
  kept_count : Nat
deriving DecidableEq, Repr

/-- `filter_threats` (routers/verify.py lines 60-127): reject an empty chain
list; with no verification answers at all, keep every chain at the neutral
score without consulting the verifier; otherwise delegate to
`filter_threats_by_verification`; finally report kept and removed counts. -/
def filter_threats (oracle : PlausibilityOracle) (threat_chains : List ThreatChain)
    (verification_answers : List ThreatVerificationAnswer) :
    Except HTTPException ThreatFilterResponse × Nat :=
  if threat_chains.isEmpty then
    (.error (rewrap "Failed to filter threats: "
        ⟨400, "At least one threat chain must be provided for filtering."⟩), 0)
  else
    let fo :=
      if verification_answers.isEmpty then
        { result := threat_chains.map
            (fun t => { threat_chain := t, plausibility_score := mkRat 1 2,
                        reasoning := noAnswersReasoning, kept := true }),
          provider_calls := 0 }
      else filter_threats_by_verification oracle threat_chains verification_answers
    let kept_count := (fo.result.filter (fun ft => ft.kept)).length
    (.ok { filtered_threats := fo.result,
           removed_count := fo.result.length - kept_count,
           kept_count := kept_count },
     fo.provider_calls)

/-! ## Concrete sample values used by witnesses and counterexamples -/

/-- A sample ML-specific chain. -/
def sampleChainA : ThreatChain :=
  { name := "Model Poisoning",
    chain := ["step 1", "step 2"],
    category := .tampering,
    description := "poisoning of training data",
    mitre_atlas := "AML.T0020",
    mitre_attack := "T1565",
    mitigations := ["validate data"] }

/-- A duplicate of `sampleChainA` up to case and surrounding whitespace in
the name. -/
def sampleChainA2 : ThreatChain :=
  { name := "  MODEL POISONING ",
    chain := ["other step"],
    category := .other,
    description := "same threat, different casing",
    mitre_atlas := "",
    mitre_attack := "",
    mitigations := [] }

/-- A second, distinct sample chain. -/
def sampleChainB : ThreatChain :=
  { name := "Data Theft",
    chain := ["step"],
    category := .information_disclosure,
    description := "exfiltration of training data",
    mitre_atlas := "AML.T0024",
    mitre_attack := "T1530",
    mitigations := ["encrypt data"] }

/-- A sample verification answer referring to `sampleChainA` by name. -/
def sampleAnswerA : ThreatVerificationAnswer :=
  { question_id := "model_poisoning_q1",
    threat_name := "Model Poisoning",
    selected_option_id := some "opt1",
    custom_answer := none,
    confidence_level := 3 }

/-- A `ThreatChain` record with an empty step list and an empty mitigation
list; the pydantic schema accepts it because `chain` and `mitigations` are
plain `List[str]` fields. -/
def emptyFieldsChain : ThreatChain :=
  { name := "Empty Threat",
    chain := [],
    category := .other,
    description := "a chain the provider returned with no steps",
    mitre_atlas := "",
    mitre_attack := "",
    mitigations := [] }

/-! ## Helper lemmas: stable descending sort -/

theorem insertByDesc_perm (key : α → ℚ) (x : α) (l : List α) :
    (insertByDesc key x l).Perm (x :: l) := by
  induction l with
  | nil => simp [insertByDesc]
  | cons y ys ih =>
    simp only [insertByDesc]
    split
    · exact List.Perm.refl _
    · exact (ih.cons y).trans (List.Perm.swap x y ys)

theorem sortByDesc_perm (key : α → ℚ) (l : List α) :
    (sortByDesc key l).Perm l := by
  induction l with
  | nil => simp [sortByDesc]
  | cons x xs ih =>
    have h : sortByDesc key (x :: xs) = insertByDesc key x (sortByDesc key xs) := rfl
    rw [h]
    exact (insertByDesc_perm key x _).trans (ih.cons x)

theorem mem_insertByDesc {key : α → ℚ} {x a : α} {l : List α} :
    a ∈ insertByDesc key x l ↔ a = x ∨ a ∈ l := by
  rw [(insertByDesc_perm key x l).mem_iff]
  simp

theorem insertByDesc_pairwise (key : α → ℚ) (x : α) {l : List α}
    (hl : l.Pairwise (fun a b => key b ≤ key a)) :
    (insertByDesc key x l).Pairwise (fun a b => key b ≤ key a) := by
  induction l with
  | nil => simp [insertByDesc]
  | cons y ys ih =>
    rcases List.pairwise_cons.mp hl with ⟨hy, hys⟩
    simp only [insertByDesc]
    split
    · rename_i hxy
      refine List.Pairwise.cons ?_ hl
      intro b hb
      rcases List.mem_cons.mp hb with rfl | hb
      · exact hxy
      · exact (hy b hb).trans hxy
    · rename_i hxy
      refine List.Pairwise.cons ?_ (ih hys)
      intro b hb
      rcases mem_insertByDesc.mp hb with rfl | hb
      · exact le_of_lt (lt_of_not_le hxy)
      · exact hy b hb

theorem sortByDesc_pairwise (key : α → ℚ) (l : List α) :
    (sortByDesc key l).Pairwise (fun a b => key b ≤ key a) := by
  induction l with
  | nil => simp [sortByDesc]
  | cons x xs ih => exact insertByDesc_pairwise key x ih

theorem filter_insertByDesc (key : α → ℚ) (x : α) (l : List α) (q : ℚ) :
    (insertByDesc key x l).filter (fun a => decide (key a = q)) =
      if key x = q then x :: l.filter (fun a => decide (key a = q))
      else l.filter (fun a => decide (key a = q)) := by
  induction l with
  | nil =>
    simp only [insertByDesc, List.filter]
    split <;> simp_all
  | cons y ys ih =>
    simp only [insertByDesc]
    split
    · rename_i hxy
      by_cases hx : key x = q <;> simp [List.filter_cons, hx]
    · rename_i hxy
      have hylt : key x < key y := lt_of_not_le hxy
      by_cases hx : key x = q
      · have hy : ¬ (key y = q) := by
          intro hyq
          rw [hx] at hylt
          rw [hyq] at hylt
          exact lt_irrefl _ hylt
        simp [List.filter_cons, hy, ih, hx]
      · by_cases hy : key y = q <;> simp [List.filter_cons, hy, ih, hx]

theorem filter_sortByDesc (key : α → ℚ) (l : List α) (q : ℚ) :
    (sortByDesc key l).filter (fun a => decide (key a = q)) =
      l.filter (fun a => decide (key a = q)) := by
  induction l with
  | nil => rfl
  | cons x xs ih =>
    have h : sortByDesc key (x :: xs) = insertByDesc key x (sortByDesc key xs) := rfl
    rw [h, filter_insertByDesc]
    by_cases hx : key x = q <;> simp [List.filter_cons, hx, ih]

/-! ## Helper lemmas: deduplication -/

theorem dedupAux_sublist (seen : List String) (ts : List ThreatChain) :
    (dedupAux seen ts).Sublist ts := by
  induction ts generalizing seen with
  | nil => simp [dedupAux]
  | cons t ts ih =>
    simp only [dedupAux]
    split
    · exact (ih seen).cons t
    · exact (ih (dedupKey t :: seen)).cons₂ t

theorem filter_dedupAux (seen : List String) (ts : List ThreatChain) (k : String) :
    (dedupAux seen ts).filter (fun t => decide (dedupKey t = k)) =
      if k ∈ seen then []
      else (ts.filter (fun t => decide (dedupKey t = k))).take 1 := by
  induction ts generalizing seen with
  | nil => simp [dedupAux]
  | cons t ts ih =>
    simp only [dedupAux]
    split
    · rename_i hseen
      rw [ih seen]
      by_cases hk : k ∈ seen
      · simp [hk]
      · have hne : ¬ (dedupKey t = k) := fun h => hk (h ▸ hseen)
        simp [hk, List.filter_cons, hne]
    · rename_i hseen
      by_cases hk : k ∈ seen
      · have hne : ¬ (dedupKey t = k) := fun h => hseen (h ▸ hk)
        have hk' : k ∈ dedupKey t :: seen := List.mem_cons_of_mem _ hk
        simp [List.filter_cons, hne, ih (dedupKey t :: seen), hk', hk]
      · by_cases ht : dedupKey t = k
        · subst ht
          simp [List.filter_cons, ih (dedupKey t :: seen), hk]
        · have hk' : ¬ k ∈ dedupKey t :: seen := by
            intro h
            rcases List.mem_cons.mp h with h | h
            · exact ht h.symm
            · exact hk h
          simp [List.filter_cons, ht, ih (dedupKey t :: seen), hk', hk]

/-! ## Helper lemmas: fan-in -/

theorem combineResults_aux (results : List StrategyResult) (acc : List ThreatChain) :
    results.foldl
        (fun all_threats r =>
          match r with
          | .ok chains => all_threats ++ chains
          | .error _ => all_threats) acc
      = acc ++ combineResults results := by
  induction results generalizing acc with
  | nil => simp [combineResults]
  | cons r rs ih =>
    cases r with
    | ok chains =>
      show _ = acc ++ combineResults (.ok chains :: rs)
      rw [combineResults, List.foldl_cons, ih, List.foldl_cons, ih]
      simp
    | error e =>
      show _ = acc ++ combineResults (.error e :: rs)
      rw [combineResults, List.foldl_cons, ih, List.foldl_cons, ih]
      simp

theorem combineResults_cons_ok (chains : List ThreatChain) (rs : List StrategyResult) :
    combineResults (.ok chains :: rs) = chains ++ combineResults rs := by
  rw [combineResults, List.foldl_cons, combineResults_aux]
  simp

theorem combineResults_cons_error (e : String) (rs : List StrategyResult) :
    combineResults (.error e :: rs) = combineResults rs := by
  rw [combineResults, List.foldl_cons, combineResults_aux]
  simp

theorem combineResults_append (rs₁ rs₂ : List StrategyResult) :
    combineResults (rs₁ ++ rs₂) = combineResults rs₁ ++ combineResults rs₂ := by
  induction rs₁ with
  | nil => simp [combineResults]
  | cons r rs ih =>
    cases r with
    | ok chains => simp [combineResults_cons_ok, ih]
    | error e => simp [combineResults_cons_error, ih]

theorem combineResults_eq_flatten (rs : List StrategyResult) :
    combineResults rs =
      (rs.filterMap (fun r : StrategyResult => r.toOption)).flatten := by
  induction rs with
  | nil => rfl
  | cons r rs ih =>
    cases r with
    | ok chains => simp [combineResults_cons_ok, ih, Except.toOption]
    | error e => simp [combineResults_cons_error, ih, Except.toOption]

/-! ## Claims -/

/-- C1: the SATISFIED-transition consolidation of chat_refine.py lines
361-362 builds the question and answer lists by two independent list
comprehensions guarded by the presence of the "question" and "answer" keys
respectively, so a qa_pair record carrying a question but no answer makes the
consolidated lists differ in length (2 questions against 1 answer here),
violating the stated invariant len(questions) == len(answers). -/
theorem c1_consolidated_lists_unequal_length :
    (consolidated_questions
        [{ question := some "Q1", answer := some "A1" },
         { question := some "Q2", answer := none }]).length = 2 ∧
    (consolidated_answers
        [{ question := some "Q1", answer := some "A1" },
         { question := some "Q2", answer := none }]).length = 1 := by
  constructor <;> rfl

/-- C2: `chat_completion_json` returns the completion text with only the
think tags removed: on a code-fenced JSON completion it returns the fenced
text verbatim instead of the inner JSON object, because the
`return cleaned_content` on client.py line 159 precedes the (unreachable)
code-fence and brace-block extraction loop. -/
theorem c2_fenced_json_not_extracted :
    chat_completion_json "```json\n\x7b\"a\":1\x7d\n```" = "```json\n\x7b\"a\":1\x7d\n```" ∧
    chat_completion_json "```json\n\x7b\"a\":1\x7d\n```" ≠ "\x7b\"a\":1\x7d" := by
  exact ⟨rfl, by decide⟩

/-- C3: deduplication keeps, for every lowercased and stripped name key,
exactly the first chain of the merge order carrying that key (the filtered
output equals the first element of the filtered input), the output is a
subsequence of the input, and on the concrete merge {A, A, B} with a
case-insensitive collision on A the result is exactly [A, B]. -/
theorem c3_dedup_keeps_first_per_name :
    (∀ (ts : List ThreatChain) (k : String),
        (_deduplicate_threats ts).Sublist ts ∧
        (_deduplicate_threats ts).filter (fun t => decide (dedupKey t = k)) =
          (ts.filter (fun t => decide (dedupKey t = k))).take 1) ∧
    _deduplicate_threats [sampleChainA, sampleChainA2, sampleChainB] =
      [sampleChainA, sampleChainB] := by
  refine ⟨fun ts k => ⟨dedupAux_sublist [] ts, ?_⟩, by decide⟩
  rw [_deduplicate_threats, filter_dedupAux]
  simp

/-- C4: prioritization is a stable descending sort by the deterministic
score `threat_score`: the output is a permutation of the input, pairwise
non-increasing in score, keeps the input order inside every equal-score
class (stable tie-breaking by merge order), is a pure function of the input
(reproducible), and the generation pipeline truncates it to at most 15
chains. -/
theorem c4_prioritization_stable_sorted_truncated :
    ∀ ts : List ThreatChain,
      (_prioritize_threats ts).Perm ts ∧
      (_prioritize_threats ts).Pairwise (fun a b => threat_score b ≤ threat_score a) ∧
      (∀ q : ℚ, (_prioritize_threats ts).filter (fun t => decide (threat_score t = q)) =
          ts.filter (fun t => decide (threat_score t = q))) ∧
      (∀ ts₂ : List ThreatChain, ts₂ = ts → _prioritize_threats ts₂ = _prioritize_threats ts) ∧
      (∀ r1 r2 r3 r4 : StrategyResult,
          generate_threat_chains r1 r2 r3 r4 =
            (_prioritize_threats (_deduplicate_threats (combineResults [r1, r2, r3, r4]))).take 15 ∧
          (generate_threat_chains r1 r2 r3 r4).length ≤ 15) := by
  intro ts
  refine ⟨sortByDesc_perm _ ts, sortByDesc_pairwise _ ts,
    fun q => filter_sortByDesc _ ts q, fun ts₂ h => by rw [h], fun r1 r2 r3 r4 => ⟨rfl, ?_⟩⟩
  calc (generate_threat_chains r1 r2 r3 r4).length
      = min 15 (_prioritize_threats
          (_deduplicate_threats (combineResults [r1, r2, r3, r4]))).length := by
        rw [generate_threat_chains, List.length_take]
    _ ≤ 15 := min_le_left _ _

/-- C4 witness: the prioritization properties instantiated on a concrete
two-chain list. -/
theorem c4_witness :
    (_prioritize_threats [sampleChainA, sampleChainB]).Perm [sampleChainA, sampleChainB] ∧
    _prioritize_threats [sampleChainA, sampleChainB] =
      _prioritize_threats [sampleChainA, sampleChainB] := by
  have h := c4_prioritization_stable_sorted_truncated [sampleChainA, sampleChainB]
  exact ⟨h.1, h.2.2.2.1 [sampleChainA, sampleChainB] rfl⟩

/-- The analysis never alters the chain it scores. -/
theorem analyze_threat_chain_eq (oracle : PlausibilityOracle) (t : ThreatChain)
    (answers : List ThreatVerificationAnswer) :
    (_analyze_threat_plausibility oracle t answers).result.threat_chain = t := by
  by_cases h : answers.isEmpty <;> simp [_analyze_threat_plausibility, h]

/-- C5: for a chain with at least one associated answer, the analysis makes
exactly one provider call, records the returned score verbatim, and keeps
the chain exactly when that score is at least 3/10 (the exact rational value
of the 0.3 threshold); in particular the boundary score 3/10 is kept and
2999/10000 is dropped. -/
theorem c5_threshold_keeps_iff_score_ge (oracle : PlausibilityOracle) (t : ThreatChain)
    (answers : List ThreatVerificationAnswer) (h : answers ≠ []) :
    (_analyze_threat_plausibility oracle t answers).provider_calls = 1 ∧
    (_analyze_threat_plausibility oracle t answers).result.plausibility_score =
      (oracle t answers).1 ∧
    ((_analyze_threat_plausibility oracle t answers).result.kept = true ↔
      mkRat 3 10 ≤ (oracle t answers).1) := by
  have he : answers.isEmpty = false := by
    cases answers with
    | nil => exact absurd rfl h
    | cons a l => rfl
  simp [_analyze_threat_plausibility, he]

/-- C5 witness: a score of exactly 3/10 is kept and a score of 2999/10000 is
dropped, on a concrete chain with one concrete answer. -/
theorem c5_witness :
    (_analyze_threat_plausibility (fun _ _ => (mkRat 3 10, "boundary")) sampleChainA
        [sampleAnswerA]).result.kept = true ∧
    (_analyze_threat_plausibility (fun _ _ => (mkRat 2999 10000, "below")) sampleChainA
        [sampleAnswerA]).result.kept = false := by
  have h1 := c5_threshold_keeps_iff_score_ge (fun _ _ => (mkRat 3 10, "boundary"))
    sampleChainA [sampleAnswerA] (by simp)
  have h2 := c5_threshold_keeps_iff_score_ge (fun _ _ => (mkRat 2999 10000, "below"))
    sampleChainA [sampleAnswerA] (by simp)
  refine ⟨h1.2.2.mpr (by decide), ?_⟩
  cases hk : (_analyze_threat_plausibility (fun _ _ => (mkRat 2999 10000, "below")) sampleChainA
      [sampleAnswerA]).result.kept with
  | false => rfl
  | true => exact absurd (h2.2.2.mp hk) (by decide)

/-- C6: a chain whose name matches no verification answer is scored with the
fixed neutral value 1/2 and kept, with zero provider calls for that chain,
and this neutral record appears in the output of
`filter_threats_by_verification`. -/
theorem c6_no_answers_neutral_kept (oracle : PlausibilityOracle)
    (ts : List ThreatChain) (answers : List ThreatVerificationAnswer) (t : ThreatChain)
    (hmem : t ∈ ts) (hnone : answers_for answers t.name = []) :
    (_analyze_threat_plausibility oracle t (answers_for answers t.name)).provider_calls = 0 ∧
    (_analyze_threat_plausibility oracle t (answers_for answers t.name)).result =
      { threat_chain := t, plausibility_score := mkRat 1 2,
        reasoning := noAnswersReasoning, kept := true } ∧
    ({ threat_chain := t, plausibility_score := mkRat 1 2,
       reasoning := noAnswersReasoning, kept := true } : FilteredThreatChain) ∈
      (filter_threats_by_verification oracle ts answers).result := by
  refine ⟨by simp [_analyze_threat_plausibility, hnone],
    by simp [_analyze_threat_plausibility, hnone], ?_⟩
  show _ ∈ sortByDesc (fun f : FilteredThreatChain => f.plausibility_score) _
  rw [(sortByDesc_perm _ _).mem_iff, List.map_map]
  refine List.mem_map.mpr ⟨t, hmem, ?_⟩
  simp [Function.comp, _analyze_threat_plausibility, hnone]

/-- C6 witness: a concrete chain with no associated answers receives the
neutral score with zero provider calls. -/
theorem c6_witness :
    (_analyze_threat_plausibility (fun _ _ => (0, ""))
        sampleChainB (answers_for [sampleAnswerA] sampleChainB.name)).provider_calls = 0 ∧
    ({ threat_chain := sampleChainB, plausibility_score := mkRat 1 2,
       reasoning := noAnswersReasoning, kept := true } : FilteredThreatChain) ∈
      (filter_threats_by_verification (fun _ _ => (0, ""))
        [sampleChainB] [sampleAnswerA]).result := by
  have h := c6_no_answers_neutral_kept (fun _ _ => (0, "")) [sampleChainB] [sampleAnswerA]
    sampleChainB (by simp) (by decide)
  exact ⟨h.1, h.2.2⟩

/-- C7: the fan-in of `generate_threat_chains` is fault tolerant: an errored
strategy contributes nothing while the chains of every other strategy are
all present, and the merged length counts exactly the successful results;
concretely, with the second of the four gathered tasks raising, the merged
list is the concatenation of the other three. -/
theorem c7_failed_strategy_does_not_abort_others :
    (∀ (xs ys : List StrategyResult) (e : String),
        combineResults (xs ++ .error e :: ys) = combineResults xs ++ combineResults ys) ∧
    (∀ rs : List StrategyResult,
        (combineResults rs).length =
          ((rs.filterMap (fun r : StrategyResult => r.toOption)).map List.length).sum) ∧
    (∀ (l1 l3 l4 : List ThreatChain) (e : String),
        combineResults [.ok l1, .error e, .ok l3, .ok l4] = l1 ++ (l3 ++ l4)) := by
  refine ⟨fun xs ys e => by rw [combineResults_append, combineResults_cons_error], ?_, ?_⟩
  · intro rs
    rw [combineResults_eq_flatten, List.length_flatten]
  · intro l1 l3 l4 e
    simp [combineResults_cons_ok, combineResults_cons_error, combineResults]

/-- C8: a generation request whose context has no attackers, no entry points
and no assets is rejected by the input validation of the `/generate` router
(the 400 insufficient-context error, re-wrapped to a 500 by the blanket
exception handler) with zero strategy tasks spawned and zero provider
calls. -/
theorem c8_empty_context_rejected_before_any_call (request : ContextEnumeration)
    (r1 r2 r3 r4 : StrategyResult)
    (ha : request.attackers = []) (hep : request.entry_points = []) (hs : request.assets = []) :
    (generate request r1 r2 r3 r4).tasks_spawned = 0 ∧
    (generate request r1 r2 r3 r4).provider_calls = 0 ∧
    (generate request r1 r2 r3 r4).result =
      .error (rewrap "Failed to generate threat chains: " ⟨400, insufficientContextDetail⟩) := by
  simp [generate, ha, hep, hs]

/-- C8 witness: the rejection on a concrete empty context. -/
theorem c8_witness :
    (generate ⟨"an ML system", [], [], [], [], [], []⟩ (.ok [sampleChainA]) (.ok [])
        (.ok []) (.ok [])).tasks_spawned = 0 ∧
    (generate ⟨"an ML system", [], [], [], [], [], []⟩ (.ok [sampleChainA]) (.ok [])
        (.ok []) (.ok [])).provider_calls = 0 ∧
    (generate ⟨"an ML system", [], [], [], [], [], []⟩ (.ok [sampleChainA]) (.ok [])
        (.ok []) (.ok [])).result =
      .error (rewrap "Failed to generate threat chains: " ⟨400, insufficientContextDetail⟩) :=
  c8_empty_context_rejected_before_any_call ⟨"an ML system", [], [], [], [], [], []⟩
    (.ok [sampleChainA]) (.ok []) (.ok []) (.ok []) rfl rfl rfl

/-- C9 counterexample: a strategy result may carry a chain with an empty
step list and an empty mitigation list (nothing in the pydantic schema or
the generator validates these fields), and the generator emits it
unchanged. -/
theorem c9_counterexample_empty_chain_emitted :
    emptyFieldsChain ∈
      generate_threat_chains (.ok [emptyFieldsChain]) (.ok []) (.ok []) (.ok []) ∧
    emptyFieldsChain.chain = [] ∧ emptyFieldsChain.mitigations = [] := by
  decide

/-- C9 (amended): the generator never edits chains, so when every chain
parsed from the strategy responses has at least one step and at least one
mitigation, every emitted chain does too; the unconditional claim fails
because the schema itself enforces no minimum length. -/
theorem c9_amended_nonempty_preserved (r1 r2 r3 r4 : StrategyResult)
    (h : ∀ t ∈ combineResults [r1, r2, r3, r4], t.chain ≠ [] ∧ t.mitigations ≠ []) :
    ∀ t ∈ generate_threat_chains r1 r2 r3 r4, t.chain ≠ [] ∧ t.mitigations ≠ [] := by
  intro t ht
  apply h
  have h1 : t ∈ _prioritize_threats
      (_deduplicate_threats (combineResults [r1, r2, r3, r4])) :=
    (List.take_sublist 15 _).subset ht
  have h2 : t ∈ _deduplicate_threats (combineResults [r1, r2, r3, r4]) :=
    (sortByDesc_perm _ _).mem_iff.mp h1
  exact (dedupAux_sublist [] _).subset h2

/-- C9 witness: the amended preservation applied to a concrete run whose
only parsed chain has non-empty steps and mitigations. -/
theorem c9_amended_witness :
    sampleChainA.chain ≠ [] ∧ sampleChainA.mitigations ≠ [] :=
  c9_amended_nonempty_preserved (.ok [sampleChainA]) (.ok []) (.ok []) (.ok [])
    (by decide) sampleChainA (by decide)

/-- C10: plausibility filtering returns exactly one `FilteredThreatChain`
per input chain — the multiset of carried chains is a permutation of the
input, so implausible chains are marked rather than dropped — and the
router reports kept and removed counts that add up to the number of input
chains. -/
theorem c10_one_filtered_record_per_chain (oracle : PlausibilityOracle)
    (threat_chains : List ThreatChain) (verification_answers : List ThreatVerificationAnswer)
    (h : threat_chains ≠ []) :
    ((filter_threats_by_verification oracle threat_chains verification_answers).result.map
        (fun ft => ft.threat_chain)).Perm threat_chains ∧
    ∃ resp : ThreatFilterResponse,
      (filter_threats oracle threat_chains verification_answers).1 = .ok resp ∧
      (resp.filtered_threats.map (fun ft => ft.threat_chain)).Perm threat_chains ∧
      resp.kept_count + resp.removed_count = threat_chains.length := by
  have hverif : ∀ answers : List ThreatVerificationAnswer,
      ((filter_threats_by_verification oracle threat_chains answers).result.map
        (fun ft => ft.threat_chain)).Perm threat_chains := by
    intro answers
    show ((sortByDesc (fun f : FilteredThreatChain => f.plausibility_score) _).map _).Perm _
    refine ((sortByDesc_perm _ _).map _).trans ?_
    rw [List.map_map, List.map_map]
    have hmap : threat_chains.map
        (((fun ft : FilteredThreatChain => ft.threat_chain) ∘ (fun a : AnalysisOutcome => a.result)) ∘
          (fun t => _analyze_threat_plausibility oracle t (answers_for answers t.name))) =
        threat_chains.map id := by
      refine List.map_congr_left ?_
      intro t _
      exact analyze_threat_chain_eq oracle t _
    rw [hmap, List.map_id]
  have he : threat_chains.isEmpty = false := by
    cases threat_chains with
    | nil => exact absurd rfl h
    | cons a l => rfl
  refine ⟨hverif verification_answers, ?_⟩
  by_cases hans : verification_answers.isEmpty
  · have hft : (filter_threats oracle threat_chains verification_answers).1 =
        .ok { filtered_threats := threat_chains.map
                (fun t => { threat_chain := t, plausibility_score := mkRat 1 2,
                            reasoning := noAnswersReasoning, kept := true }),
              removed_count := (threat_chains.map
                  (fun t => ({ threat_chain := t, plausibility_score := mkRat 1 2,
                               reasoning := noAnswersReasoning, kept := true } :
                    FilteredThreatChain))).length -
                ((threat_chains.map
                    (fun t => ({ threat_chain := t, plausibility_score := mkRat 1 2,
                                 reasoning := noAnswersReasoning, kept := true } :
                      FilteredThreatChain))).filter (fun ft => ft.kept)).length,
              kept_count := ((threat_chains.map
                  (fun t => ({ threat_chain := t, plausibility_score := mkRat 1 2,
                               reasoning := noAnswersReasoning, kept := true } :
                    FilteredThreatChain))).filter (fun ft => ft.kept)).length } := by
      simp [filter_threats, he, hans]
    refine ⟨_, hft, ?_, ?_⟩
    · show ((threat_chains.map _).map _).Perm _
      rw [List.map_map]
      have hmap : threat_chains.map
          ((fun ft : FilteredThreatChain => ft.threat_chain) ∘
            (fun t => { threat_chain := t, plausibility_score := mkRat 1 2,
                        reasoning := noAnswersReasoning, kept := true })) =
          threat_chains.map id := List.map_congr_left (fun t _ => rfl)
      rw [hmap, List.map_id]
    · show ((threat_chains.map _).filter _).length +
        ((threat_chains.map _).length - ((threat_chains.map _).filter _).length) = _
      rw [Nat.add_sub_cancel' (List.length_filter_le _ _), List.length_map]
  · have hft : (filter_threats oracle threat_chains verification_answers).1 =
        .ok { filtered_threats := (filter_threats_by_verification oracle threat_chains
                verification_answers).result,
              removed_count := (filter_threats_by_verification oracle threat_chains
                  verification_answers).result.length -
                ((filter_threats_by_verification oracle threat_chains
                    verification_answers).result.filter (fun ft => ft.kept)).length,
              kept_count := ((filter_threats_by_verification oracle threat_chains
                  verification_answers).result.filter (fun ft => ft.kept)).length } := by
      simp [filter_threats, he, hans]
    refine ⟨_, hft, ?_, ?_⟩
    · exact hverif verification_answers
    · have hlen : (filter_threats_by_verification oracle threat_chains
          verification_answers).result.length = threat_chains.length := by
        have hl := (hverif verification_answers).length_eq
        rwa [List.length_map] at hl
      show ((filter_threats_by_verification oracle threat_chains
          verification_answers).result.filter _).length +
        ((filter_threats_by_verification oracle threat_chains verification_answers).result.length -
          ((filter_threats_by_verification oracle threat_chains
            verification_answers).result.filter _).length) = _
      rw [Nat.add_sub_cancel' (List.length_filter_le _ _), hlen]

/-- C10 witness: on a concrete two-chain input with one answer, the router
reply pairs every chain with one filtered record and the counts add up. -/
theorem c10_witness :
    ((filter_threats_by_verification (fun _ _ => (0, "implausible"))
        [sampleChainA, sampleChainB] [sampleAnswerA]).result.map
      (fun ft => ft.threat_chain)).Perm [sampleChainA, sampleChainB] ∧
    ∃ resp : ThreatFilterResponse,
      (filter_threats (fun _ _ => (0, "implausible"))
          [sampleChainA, sampleChainB] [sampleAnswerA]).1 = .ok resp ∧
      (resp.filtered_threats.map (fun ft => ft.threat_chain)).Perm
        [sampleChainA, sampleChainB] ∧
      resp.kept_count + resp.removed_count = ([sampleChainA, sampleChainB] :
        List ThreatChain).length :=
  c10_one_filtered_record_per_chain (fun _ _ => (0, "implausible"))
    [sampleChainA, sampleChainB] [sampleAnswerA] (by simp)

end MLTC
